import Mathlib

/-!
Verification development for the aiida-lsmo orchestration workchains.

The definitions below are a shallow embedding of the control logic of
  * `aiida_lsmo/workchains/isotherm.py` (IsothermWorkChain and its calcfunctions),
  * `aiida_lsmo/workchains/cp2k_binding_energy.py` (Cp2kBindingEnergyWorkChain),
  * `aiida_lsmo/workchains/multicomp_ads_des.py` (MulticompAdsDesWorkChain).

Python floats are modelled as rationals (ℚ), Python dicts as insertion-ordered
association lists over `String` keys, and the external simulation codes as an
environment supplying one structured result per submitted stage.
-/

/-- A Python/JSON-like value, as stored in the AiiDA `Dict` output records. -/
inductive JVal where
  | num (q : ℚ)
  | str (s : String)
  | bool (b : Bool)
  | null
  | list (xs : List JVal)
  | dict (d : List (String × JVal))

/-- Lookup of a key in an (insertion-ordered) dict, `d[k]` read access. -/
def dictLookup (k : String) : List (String × JVal) → Option JVal
  | [] => none
  | (k', v) :: rest => if k' = k then some v else dictLookup k rest

/-- Assignment `d[k] = v` on a Python dict: replace the value of an existing key in place,
otherwise append the new key at the end (insertion order). -/
def dictSet : List (String × JVal) → String → JVal → List (String × JVal)
  | [], k, v => [(k, v)]
  | (k', v') :: rest, k, v =>
      if k' = k then (k, v) :: rest else (k', v') :: dictSet rest k v

/-- Update `d.update(upd)` on Python dicts: apply `dictSet` for each pair of `upd` in order. -/
def dictUpdate (d : List (String × JVal)) (upd : List (String × JVal)) :
    List (String × JVal) :=
  upd.foldl (fun acc kv => dictSet acc kv.1 kv.2) d

/-- Read a boolean entry of a record (the workchains only read keys they have
themselves stored, so the default branch is never hit on the traced records). -/
def getBoolD (d : List (String × JVal)) (k : String) : Bool :=
  match dictLookup k d with
  | some (JVal.bool b) => b
  | _ => false

/-- Read a numeric entry of a record (same remark as `getBoolD`). -/
def getNumD (d : List (String × JVal)) (k : String) : ℚ :=
  match dictLookup k d with
  | some (JVal.num q) => q
  | _ => 0

/-!
## Adaptive pressure sampler

`choose_pressure_points` (isotherm.py, lines 78-99).  The Python `while True`
loop is translated with an explicit fuel argument; `pressureFuel` computes a
fuel provably large enough that the `fuel = 0` branch is unreachable whenever
the physical parameters are positive (see `genPressures_chain_getLast`), so on
those inputs the fuel-free and fuel-based loops coincide.
-/

/-- The loop body of `choose_pressure_points`:
`delta_p = min(pressure_maxstep, pressure_precision * (b*p**2 + 2*p + 1/b))`,
`pnew = pold + delta_p`; append `pnew` while `pnew <= pressure_max`, otherwise
append `pressure_max` once and stop. -/
def genPressures (ms pr b pmax : ℚ) : Nat → ℚ → List ℚ
  | 0, _ => []
  | fuel + 1, p =>
      let delta := min ms (pr * (b * p ^ 2 + 2 * p + 1 / b))
      let pnew := p + delta
      if pnew ≤ pmax then pnew :: genPressures ms pr b pmax fuel pnew
      else [pmax]

/-- Fuel bound for `genPressures`: every iteration advances the point by at
least `min ms (pr / b)`, so `⌈(pmax - p) / min ms (pr / b)⌉ + 1` steps always
reach the final append. -/
def pressureFuel (ms pr b pmax p : ℚ) : Nat :=
  (⌈(pmax - p) / min ms (pr / b)⌉).toNat + 1

/-- The validated inputs of `IsothermWorkChain` that the orchestration logic
reads (isotherm.py, `parameters_schema`).  `pressure_list = none` models the
optional key being absent. -/
structure IsoParams where
  temperature : ℚ
  raspa_minKh : ℚ
  pressure_min : ℚ
  pressure_max : ℚ
  pressure_maxstep : ℚ
  pressure_precision : ℚ
  pressure_list : Option (List ℚ)

/-- Function `choose_pressure_points` (isotherm.py, lines 78-99).  `sat` is
`geom['Estimated_saturation_loading']` and `khenry` is the Henry coefficient
read from the Widom output; `b_value = khenry / sat * 1e5` (khenry is in
mol/kg/Pa and the factor converts to 1/bar).  If the user supplied an explicit
`pressure_list` it is returned verbatim; otherwise the list starts at
`pressure_min` and the loop appends the generated points. -/
def choose_pressure_points (inp : IsoParams) (sat khenry : ℚ) : List ℚ :=
  match inp.pressure_list with
  | some l => l
  | none =>
      let b := khenry / sat * 100000
      inp.pressure_min ::
        genPressures inp.pressure_maxstep inp.pressure_precision b inp.pressure_max
          (pressureFuel inp.pressure_maxstep inp.pressure_precision b inp.pressure_max
            inp.pressure_min)
          inp.pressure_min

/-!
## Isotherm workchain: stage outputs and result aggregation

External stage results are modelled structurally with the fields the workchain
reads.  The Zeo++ `output_parameters` dict is kept as a record whose `get_dict`
image (`zeoppDict`) lists the keys the calculation emits, because
`get_geometric_dict` and `get_output_parameters` pass the *whole* dict through
to the final record.
-/

/-- Output of the Zeo++ screening stage (volpo + block calculation). -/
structure ZeoppOut where
  density : ℚ
  unitcell_volume : ℚ
  poav_a3 : ℚ
  poav_volume_fraction : ℚ
  poav_cm3_g : ℚ
  number_of_blocking_spheres : ℚ

/-- Image of `zeopp_out.get_dict()`: the Zeo++ output as a Python dict. -/
def zeoppDict (z : ZeoppOut) : List (String × JVal) :=
  [("Density", JVal.num z.density),
   ("Unitcell_volume", JVal.num z.unitcell_volume),
   ("POAV_A^3", JVal.num z.poav_a3),
   ("POAV_Volume_fraction", JVal.num z.poav_volume_fraction),
   ("POAV_cm^3/g", JVal.num z.poav_cm3_g),
   ("Number_of_blocking_spheres", JVal.num z.number_of_blocking_spheres)]

/-- Function `get_geometric_dict` (isotherm.py, lines 102-111): the Zeo++ dict updated
with the estimated saturation loading (`POAV_cm^3/g * molecule['molsatdens']`),
its unit, and `is_porous = POAV_A^3 > 0.000`. -/
def get_geometric_dict (z : ZeoppOut) (molsatdens : ℚ) : List (String × JVal) :=
  dictUpdate (zeoppDict z)
    [("Estimated_saturation_loading", JVal.num (z.poav_cm3_g * molsatdens)),
     ("Estimated_saturation_loading_unit", JVal.str "mol/kg"),
     ("is_porous", JVal.bool (decide (z.poav_a3 > 0)))]

/-- The per-molecule block of the Raspa Widom `output_parameters`
(`list(widom_out['framework_1']['components'].values())[0]`), restricted to the
fields `get_output_parameters` and the GCMC gate read. -/
structure WidomCompOut where
  henry_coefficient_average : ℚ
  henry_coefficient_dev : ℚ
  henry_coefficient_unit : String
  adsorption_energy_widom_average : ℚ
  adsorption_energy_widom_dev : ℚ
  adsorption_energy_widom_unit : String

/-- The per-molecule block of one Raspa GCMC `output_parameters`. -/
structure GcmcCompOut where
  loading_absolute_average : ℚ
  loading_absolute_dev : ℚ
  conversion_factor_molec_uc_to_mol_kg : ℚ
  conversion_factor_molec_uc_to_cm3stp_cm3 : ℚ
  conversion_factor_molec_uc_to_mg_g : ℚ
deriving Inhabited

/-- One Raspa GCMC `output_parameters['framework_1']`: the molecule block plus
the `general` enthalpy entries, which Raspa reports as Null (`none`) when no
particle was ever present. -/
structure GcmcOut where
  comp : GcmcCompOut
  enthalpy_of_adsorption_average : Option ℚ
  enthalpy_of_adsorption_dev : Option ℚ
deriving Inhabited

/-- Constant `conv_ener = 1.0 / 120.273` (K to kJ/mol). -/
def convEner : ℚ := 1 / (120273 / 1000 : ℚ)

/-- One enthalpy entry of the isotherm block:
`if gcmc_out['general'][label]: append(conv_ener * value) else append(None)`.
Python truthiness makes both Null and an exact 0.0 fall into the None branch. -/
def enthalpyEntry (x : Option ℚ) : JVal :=
  match x with
  | some v => if v = 0 then JVal.null else JVal.num (convEner * v)
  | none => JVal.null

/-- The `isotherm` sub-dict assembled by `get_output_parameters`
(isotherm.py, lines 141-167), with the loadings converted to mol/kg. -/
def isothermDict (pressures : List ℚ) (gs : List GcmcOut) : JVal :=
  JVal.dict
    [("pressure", JVal.list (pressures.map JVal.num)),
     ("pressure_unit", JVal.str "bar"),
     ("loading_absolute_average",
       JVal.list (gs.map (fun g =>
         JVal.num (g.comp.conversion_factor_molec_uc_to_mol_kg *
           g.comp.loading_absolute_average)))),
     ("loading_absolute_dev",
       JVal.list (gs.map (fun g =>
         JVal.num (g.comp.conversion_factor_molec_uc_to_mol_kg *
           g.comp.loading_absolute_dev)))),
     ("loading_absolute_unit", JVal.str "mol/kg"),
     ("enthalpy_of_adsorption_average",
       JVal.list (gs.map (fun g => enthalpyEntry g.enthalpy_of_adsorption_average))),
     ("enthalpy_of_adsorption_dev",
       JVal.list (gs.map (fun g => enthalpyEntry g.enthalpy_of_adsorption_dev))),
     ("enthalpy_of_adsorption_unit", JVal.str "kJ/mol")]

/-- The record after the first two updates of the porous branch of
`get_output_parameters` (isotherm.py, lines 120-139): temperature block with
the recomputed `is_kh_enough`, then the six Widom labels. -/
def widomRecord (geom_out : List (String × JVal)) (inp : IsoParams)
    (w : WidomCompOut) : List (String × JVal) :=
  dictUpdate
    (dictUpdate geom_out
      [("temperature", JVal.num inp.temperature),
       ("temperature_unit", JVal.str "K"),
       ("is_kh_enough",
         JVal.bool (decide (w.henry_coefficient_average > inp.raspa_minKh)))])
    [("henry_coefficient_average", JVal.num w.henry_coefficient_average),
     ("henry_coefficient_dev", JVal.num w.henry_coefficient_dev),
     ("henry_coefficient_unit", JVal.str w.henry_coefficient_unit),
     ("adsorption_energy_widom_average", JVal.num w.adsorption_energy_widom_average),
     ("adsorption_energy_widom_dev", JVal.num w.adsorption_energy_widom_dev),
     ("adsorption_energy_widom_unit", JVal.str w.adsorption_energy_widom_unit)]

/-- Function `get_output_parameters` (isotherm.py, lines 114-176).  `gcmc_out` lists the
`RaspaGCMC_{i+1}` outputs in pressure order; the loop over
`range(len(pressures))` indexes into it (a mismatch would be a Python
`KeyError`, and an empty loop would leave `gcmc_out_mol` unbound — the
coordinator below never produces either, so the total `getD`/`getLast?`
readings agree with the source on every reachable input). -/
def get_output_parameters (geom_out : List (String × JVal)) (inp : IsoParams)
    (widom_out : Option WidomCompOut) (pressures : Option (List ℚ))
    (gcmc_out : List GcmcOut) : List (String × JVal) :=
  match widom_out, getBoolD geom_out "is_porous" with
  | some w, true =>
      let out2 := widomRecord geom_out inp w
      if getBoolD out2 "is_kh_enough" then
        let ps := pressures.getD []
        let gs := (List.range ps.length).map (fun i => gcmc_out.getD i default)
        match gs.getLast? with
        | some glast =>
            dictUpdate out2
              [("isotherm", isothermDict ps gs),
               ("conversion_factor_molec_uc_to_cm3stp_cm3",
                 JVal.num glast.comp.conversion_factor_molec_uc_to_cm3stp_cm3),
               ("conversion_factor_molec_uc_to_mg_g",
                 JVal.num glast.comp.conversion_factor_molec_uc_to_mg_g),
               ("conversion_factor_molec_uc_to_mol_kg",
                 JVal.num glast.comp.conversion_factor_molec_uc_to_mol_kg)]
        | none => dictUpdate out2 [("isotherm", isothermDict ps gs)]
      else out2
  | _, _ => geom_out

/-- Gate `should_run_gcmc` (isotherm.py, lines 434-445): continue to the GCMC phase
iff the Widom Henry coefficient strictly exceeds `raspa_minKh`. -/
def should_run_gcmc (w : WidomCompOut) (inp : IsoParams) : Bool :=
  decide (w.henry_coefficient_average > inp.raspa_minKh)

/-- Environment of one isotherm run: the external results each stage would
return when submitted.  `gcmc i` is the output of the (i+1)-th GCMC stage. -/
structure IsoEnv where
  zeopp : ZeoppOut
  molsatdens : ℚ
  widom : WidomCompOut
  gcmc : Nat → GcmcOut

/-- Observable trace of one isotherm run: how many Widom (reference) and GCMC
(sample) stages were submitted, whether the GCMC phase was entered at all,
whether the Zeo++ `block` output was exposed, and the final output record. -/
structure IsoTrace where
  widom_submissions : Nat
  gcmc_submissions : Nat
  entered_gcmc_phase : Bool
  block_emitted : Bool
  record : List (String × JVal)

/-- The `IsothermWorkChain` outline (isotherm.py, lines 252-265 and the step
methods), for the plain single-temperature variant (no `geometric` input and
no `temperature_list`, i.e. `multitemp_mode = None`):
`run_zeopp`, then `should_run_widom` gates on `geom['is_porous']` (exposing the
`block` output only in the porous branch, and only when blocking spheres were
found), then `should_run_gcmc` gates the GCMC loop, which submits one stage per
chosen pressure point; `return_output_parameters` merges the final record. -/
def runIsotherm (env : IsoEnv) (inp : IsoParams) : IsoTrace :=
  let geom := get_geometric_dict env.zeopp env.molsatdens
  let porous := getBoolD geom "is_porous"
  let blockEmitted := porous && decide (env.zeopp.number_of_blocking_spheres > 0)
  if porous then
    if should_run_gcmc env.widom inp then
      let ps := choose_pressure_points inp (getNumD geom "Estimated_saturation_loading")
        env.widom.henry_coefficient_average
      let gs := (List.range ps.length).map env.gcmc
      { widom_submissions := 1, gcmc_submissions := ps.length,
        entered_gcmc_phase := true, block_emitted := blockEmitted,
        record := get_output_parameters geom inp (some env.widom) (some ps) gs }
    else
      { widom_submissions := 1, gcmc_submissions := 0,
        entered_gcmc_phase := false, block_emitted := blockEmitted,
        record := get_output_parameters geom inp (some env.widom) none [] }
  else
    { widom_submissions := 0, gcmc_submissions := 0,
      entered_gcmc_phase := false, block_emitted := blockEmitted,
      record := get_output_parameters geom inp none none [] }

/-!
## Binding-energy workchain: settings-escalation state machine

`Cp2kBindingEnergyWorkChain` (cp2k_binding_energy.py).  The protocol is
modelled by the set of indices `k` for which the profile `settings_k` exists
(the merged configuration content plays no role in the claims below, only the
`'settings_k' in protocol` membership tests do).  One geo-opt stage result is
reduced to the three observables the inspector reads: whether
`output_parameters` exists at all (parsing succeeded), the final
`motion_step_info['scf_converged'][-1]` flag, and the verdict of
`ot_has_small_bandgap` (a utility outside the workchain files; its boolean
outcome is taken as part of the stage result). -/
structure GeoOptResult where
  parsed : Bool
  scf_converged_last : Bool
  small_bandgap : Bool
deriving DecidableEq

/-- Outcome of `setup` (cp2k_binding_energy.py, lines 115-143).  Reading
`protocol['settings_0']` with no such profile raises an uncaught Python
`KeyError` (`crashKeyError`); a missing profile strictly between 1 and the
requested starting index returns `ERROR_MISSING_INITIAL_SETTINGS`. -/
inductive SetupOutcome where
  | ok (settings_idx : Nat)
  | exitMissingInitialSettings
  | crashKeyError
deriving DecidableEq

/-- The `while self.inputs.starting_settings_idx > self.ctx.settings_idx` loop
of `setup`: `remaining` counts the iterations still to run (initially the
starting index, since `settings_idx` starts at 0). -/
def setupLoop (protocol : List Nat) (settings_idx : Nat) : Nat → SetupOutcome
  | 0 => SetupOutcome.ok settings_idx
  | remaining + 1 =>
      if settings_idx + 1 ∈ protocol then setupLoop protocol (settings_idx + 1) remaining
      else SetupOutcome.exitMissingInitialSettings

/-- Method `setup` (cp2k_binding_energy.py, lines 115-143), control flow only:
`settings_0` is read unconditionally, then profiles are merged one by one up
to `starting_settings_idx`. -/
def setup (protocol : List Nat) (starting_settings_idx : Nat) : SetupOutcome :=
  if 0 ∈ protocol then setupLoop protocol 0 starting_settings_idx
  else SetupOutcome.crashKeyError

/-- Verdict of one pass of `inspect_and_update_settings_geo_opt`.
`crashAttributeError` is the uncaught Python `AttributeError` raised at
cp2k_binding_energy.py line 226 (see the inspector below). -/
inductive GeoVerdict where
  | accept
  | retryAt (settings_idx : Nat)
  | exitParsingOutput
  | exitNoMoreSettings
  | crashAttributeError
deriving DecidableEq

/-- Inspector `inspect_and_update_settings_geo_opt` (cp2k_binding_energy.py, lines
196-232): missing `output_parameters` is `ERROR_PARSING_OUTPUT`; a
non-converged final SCF, or a converged SCF with a too-small band gap, marks
the settings bad and increments the index.  On the settings-bad path the first
statement (line 226) relabels the discarded output as
`'{}_{}_discard'.format(self.ctx.stage_tag, self.ctx.settings_tag)`, reading
`self.ctx.stage_tag`; `stage_tag : Option String` models that context entry
(`none` when it was never assigned, in which case the read raises an uncaught
`AttributeError` on AiiDA's attribute-dict context and the method aborts
before the membership check).  Only when `stage_tag` is set does the code
reach the lookup of the incremented profile, retrying when present and
exiting with `ERROR_NO_MORE_SETTINGS` when absent. -/
def inspect_and_update_settings_geo_opt (stage_tag : Option String)
    (protocol : List Nat) (settings_idx : Nat) (r : GeoOptResult) : GeoVerdict :=
  if !r.parsed then GeoVerdict.exitParsingOutput
  else
    let settings_ok :=
      if !r.scf_converged_last then false
      else if r.small_bandgap then false
      else true
    if settings_ok then GeoVerdict.accept
    else
      match stage_tag with
      | none => GeoVerdict.crashAttributeError
      | some _ =>
          if settings_idx + 1 ∈ protocol then GeoVerdict.retryAt (settings_idx + 1)
          else GeoVerdict.exitNoMoreSettings

/-- Terminal outcome of the binding-energy run, carrying the number of
geometry-stage submissions made before terminating (the BSSE stage is not
counted; it runs only after `accepted`). -/
inductive BEOutcome where
  | crashKeyError (geo_submissions : Nat)
  | crashAttributeError (geo_submissions : Nat)
  | exitMissingInitialSettings (geo_submissions : Nat)
  | exitParsingOutput (geo_submissions : Nat)
  | exitNoMoreSettings (geo_submissions : Nat)
  | accepted (geo_submissions : Nat)
deriving DecidableEq

/-- The `while_(cls.should_run_geo_opt)(run_geo_opt, inspect_and_update...)`
loop of the outline (cp2k_binding_energy.py, lines 91-99).  `results n` is the
stage result of the (n+1)-th geo-opt submission; `none` means the fuel bound
was reached before the loop terminated. -/
def geoOptLoop (stage_tag : Option String) (protocol : List Nat)
    (results : Nat → GeoOptResult) : Nat → Nat → Nat → Option BEOutcome
  | 0, _, _ => none
  | fuel + 1, settings_idx, nsubs =>
      match inspect_and_update_settings_geo_opt stage_tag protocol settings_idx
          (results nsubs) with
      | GeoVerdict.accept => some (BEOutcome.accepted (nsubs + 1))
      | GeoVerdict.retryAt idx => geoOptLoop stage_tag protocol results fuel idx (nsubs + 1)
      | GeoVerdict.exitParsingOutput => some (BEOutcome.exitParsingOutput (nsubs + 1))
      | GeoVerdict.exitNoMoreSettings => some (BEOutcome.exitNoMoreSettings (nsubs + 1))
      | GeoVerdict.crashAttributeError => some (BEOutcome.crashAttributeError (nsubs + 1))

/-- The full binding-energy coordinator: `setup`, then the geo-opt retry loop.
Both setup failures terminate before any stage is submitted.  Nothing in
`Cp2kBindingEnergyWorkChain` ever assigns `self.ctx.stage_tag` (line 226 is
its only occurrence in the file, a read), so the loop runs with
`stage_tag = none`. -/
def runBindingEnergy (protocol : List Nat) (starting_settings_idx : Nat)
    (results : Nat → GeoOptResult) (fuel : Nat) : Option BEOutcome :=
  match setup protocol starting_settings_idx with
  | SetupOutcome.crashKeyError => some (BEOutcome.crashKeyError 0)
  | SetupOutcome.exitMissingInitialSettings => some (BEOutcome.exitMissingInitialSettings 0)
  | SetupOutcome.ok idx => geoOptLoop none protocol results fuel idx 0

/-- A stage result judged RetryEscalate by the inspector: it parsed, and
either the final SCF did not converge or the band gap is below threshold. -/
def judgedRetryEscalate (r : GeoOptResult) : Prop :=
  r.parsed = true ∧ (r.scf_converged_last = false ∨ r.small_bandgap = true)

/-!
## Multi-component adsorption/desorption workchain

`MulticompAdsDesWorkChain` (multicomp_ads_des.py).  The components are an
ordered list of (name, molfraction) pairs; the two GCMC outputs are given as
maps from component name to the per-component block.  `isFramework` selects
between the `framework_1` and `box_1` branches of `get_output_parameters`
(which only choose the conversion-factor key). -/
structure MComp where
  name : String
  molfraction : ℚ

/-- Factor `conv_load`: `conversion_factor_molec_uc_to_mol_kg` for a framework system,
`conversion_factor_molec_uc_to_cm3stp_cm3` for a box system
(multicomp_ads_des.py, lines 122-129). -/
def convLoad (isFramework : Bool) (g : GcmcCompOut) : ℚ :=
  if isFramework then g.conversion_factor_molec_uc_to_mol_kg
  else g.conversion_factor_molec_uc_to_cm3stp_cm3

/-- Entry `out_dict['loading_absolute_average'][comp]` (multicomp_ads_des.py, lines
127-131): the converted loadings, adsorption first, desorption second. -/
def loadingAbsoluteAverage (isFramework : Bool) (ads des : String → GcmcCompOut)
    (comp : String) : List ℚ :=
  [convLoad isFramework (ads comp) * (ads comp).loading_absolute_average,
   convLoad isFramework (des comp) * (des comp).loading_absolute_average]

/-- Total `tot_load_ads = sum([load[0] for load in
out_dict['loading_absolute_average'].values()])` (line 136). -/
def totLoadAds (comps : List MComp) (isFramework : Bool)
    (ads des : String → GcmcCompOut) : ℚ :=
  (comps.map (fun c => (loadingAbsoluteAverage isFramework ads des c.name).getD 0 0)).sum

/-- Ratio `comp_des = out_dict['loading_absolute_average'][comp][0] / tot_load_ads`
(line 137): the desorption-phase composition entry. -/
def compDes (comps : List MComp) (isFramework : Bool)
    (ads des : String → GcmcCompOut) (comp : String) : ℚ :=
  (loadingAbsoluteAverage isFramework ads des comp).getD 0 0 /
    totLoadAds comps isFramework ads des

/-- Entry `out_dict['composition'][comp]` (lines 133-138): the adsorption molfraction
followed by the desorption composition `comp_des`. -/
def compositionOf (comps : List MComp) (isFramework : Bool)
    (ads des : String → GcmcCompOut) (c : MComp) : List ℚ :=
  [c.molfraction, compDes comps isFramework ads des c.name]

/-- Method `_update_gcmc_inputs_desorption` (multicomp_ads_des.py, lines 316-320): the
`MolFraction` fed to the desorption GCMC stage is each component's raw
adsorption loading (molecules per unit cell) over their total. -/
def desorptionMolFraction (comps : List MComp) (ads : String → GcmcCompOut)
    (comp : String) : ℚ :=
  (ads comp).loading_absolute_average /
    (comps.map (fun c => (ads c.name).loading_absolute_average)).sum

/-!
## Concrete inputs used by the witness and counterexample theorems
-/

/-- Sampler parameters with `pressure_min = pressure_max = 1` bar. -/
def samplerBoundaryParams : IsoParams :=
  { temperature := 300, raspa_minKh := 1, pressure_min := 1, pressure_max := 1,
    pressure_maxstep := 1, pressure_precision := 1, pressure_list := none }

/-- Sampler parameters for which the generated point hits `pressure_max`
exactly: at `p = 1` the step is `min 1 (1*(1+2+1)) = 1`, landing on `2`. -/
def samplerHitParams : IsoParams :=
  { temperature := 300, raspa_minKh := 1, pressure_min := 1, pressure_max := 2,
    pressure_maxstep := 1, pressure_precision := 1, pressure_list := none }

/-- A Zeo++ result with no accessible pore volume but one blocking sphere. -/
def zeoppNonporous : ZeoppOut :=
  { density := 1, unitcell_volume := 1000, poav_a3 := 0, poav_volume_fraction := 0,
    poav_cm3_g := 0, number_of_blocking_spheres := 1 }

/-- A Zeo++ result with accessible pore volume. -/
def zeoppPorous : ZeoppOut :=
  { density := 1, unitcell_volume := 1000, poav_a3 := 1/2, poav_volume_fraction := 1/4,
    poav_cm3_g := 1/2, number_of_blocking_spheres := 0 }

/-- A Widom result whose Henry coefficient (1/2) is below `raspa_minKh = 1`. -/
def widomLow : WidomCompOut :=
  { henry_coefficient_average := 1/2, henry_coefficient_dev := 0,
    henry_coefficient_unit := "mol/kg/Pa", adsorption_energy_widom_average := 0,
    adsorption_energy_widom_dev := 0, adsorption_energy_widom_unit := "kJ/mol" }

/-- Isotherm run against the non-porous screening result. -/
def envNonporous : IsoEnv :=
  { zeopp := zeoppNonporous, molsatdens := 1, widom := widomLow,
    gcmc := fun _ => default }

/-- Isotherm run that is porous but whose Henry coefficient is too small. -/
def envPorousLow : IsoEnv :=
  { zeopp := zeoppPorous, molsatdens := 20, widom := widomLow,
    gcmc := fun _ => default }

/-- Workchain parameters for the concrete isotherm runs. -/
def isoParamsEx : IsoParams :=
  { temperature := 300, raspa_minKh := 1, pressure_min := 1, pressure_max := 2,
    pressure_maxstep := 1, pressure_precision := 1, pressure_list := none }

/-- Geo-opt stage results that always fail to converge the SCF. -/
def retryAllResults : Nat → GeoOptResult := fun _ =>
  { parsed := true, scf_converged_last := false, small_bandgap := false }

/-- Two components for the multi-component witnesses. -/
def compsEx : List MComp := [{ name := "Xe", molfraction := 4/5 },
                             { name := "Kr", molfraction := 1/5 }]

/-- Adsorption GCMC outputs for `compsEx` (loadings 2 and 3 molec/uc). -/
def adsEx : String → GcmcCompOut := fun n =>
  if n = "Xe" then
    { loading_absolute_average := 2, loading_absolute_dev := 0,
      conversion_factor_molec_uc_to_mol_kg := 1,
      conversion_factor_molec_uc_to_cm3stp_cm3 := 1,
      conversion_factor_molec_uc_to_mg_g := 1 }
  else
    { loading_absolute_average := 3, loading_absolute_dev := 0,
      conversion_factor_molec_uc_to_mol_kg := 1,
      conversion_factor_molec_uc_to_cm3stp_cm3 := 1,
      conversion_factor_molec_uc_to_mg_g := 1 }

/-- Desorption GCMC outputs for `compsEx`. -/
def desEx : String → GcmcCompOut := fun _ =>
  { loading_absolute_average := 1, loading_absolute_dev := 0,
    conversion_factor_molec_uc_to_mol_kg := 1,
    conversion_factor_molec_uc_to_cm3stp_cm3 := 1,
    conversion_factor_molec_uc_to_mg_g := 1 }

/-!
## Helper lemmas: dict operations
-/

theorem dictLookup_dictSet_ne (k k' : String) (v : JVal) (h : k ≠ k') :
    ∀ d : List (String × JVal), dictLookup k (dictSet d k' v) = dictLookup k d := by
  intro d
  induction d with
  | nil => simp [dictSet, dictLookup, Ne.symm h]
  | cons kv rest ih =>
      obtain ⟨k₀, v₀⟩ := kv
      by_cases h₀ : k₀ = k'
      · subst h₀
        simp [dictSet, dictLookup, Ne.symm h]
      · by_cases h₁ : k₀ = k
        · subst h₁
          simp [dictSet, dictLookup, h₀]
        · simp [dictSet, dictLookup, h₀, h₁, ih]

theorem dictLookup_dictUpdate_not_mem (k : String) :
    ∀ (upd d : List (String × JVal)), k ∉ upd.map Prod.fst →
      dictLookup k (dictUpdate d upd) = dictLookup k d := by
  intro upd
  induction upd with
  | nil => intro d _; rfl
  | cons kv rest ih =>
      intro d h
      have h1 : k ≠ kv.1 := by
        intro hk
        exact h (by simp [hk])
      have h2 : k ∉ rest.map Prod.fst := by
        intro hk
        exact h (by simp [hk])
      calc dictLookup k (dictUpdate d (kv :: rest))
          = dictLookup k (dictUpdate (dictSet d kv.1 kv.2) rest) := rfl
        _ = dictLookup k (dictSet d kv.1 kv.2) := ih _ h2
        _ = dictLookup k d := dictLookup_dictSet_ne k kv.1 kv.2 h1 d

/-!
## Helper lemmas: adaptive sampler
-/

theorem genPressures_succ (ms pr b pmax p : ℚ) (n : Nat) :
    genPressures ms pr b pmax (n + 1) p =
      if p + min ms (pr * (b * p ^ 2 + 2 * p + 1 / b)) ≤ pmax
      then (p + min ms (pr * (b * p ^ 2 + 2 * p + 1 / b))) ::
             genPressures ms pr b pmax n (p + min ms (pr * (b * p ^ 2 + 2 * p + 1 / b)))
      else [pmax] := rfl

/-- For a nonnegative point, the step `delta_p` is at least `min ms (pr / b)`:
the Langmuir factor satisfies `b*p^2 + 2*p + 1/b ≥ 1/b`. -/
theorem deltaMin_le (ms pr b p : ℚ) (hpr : 0 < pr) (hb : 0 < b) (hp : 0 ≤ p) :
    min ms (pr / b) ≤ min ms (pr * (b * p ^ 2 + 2 * p + 1 / b)) := by
  apply min_le_min le_rfl
  rw [div_eq_mul_one_div]
  apply mul_le_mul_of_nonneg_left _ hpr.le
  have h1 : 0 ≤ b * p ^ 2 := mul_nonneg hb.le (sq_nonneg p)
  linarith

/-- For positive parameters and a nonnegative point the step is positive. -/
theorem deltaPos (ms pr b p : ℚ) (hms : 0 < ms) (hpr : 0 < pr) (hb : 0 < b)
    (hp : 0 ≤ p) :
    0 < min ms (pr * (b * p ^ 2 + 2 * p + 1 / b)) :=
  lt_of_lt_of_le (lt_min hms (div_pos hpr hb)) (deltaMin_le ms pr b p hpr hb hp)

/-- Advancing by at least `min ms (pr / b)` strictly decreases the fuel bound. -/
theorem pressureFuel_decrease (ms pr b pmax p d : ℚ) (hms : 0 < ms) (hpr : 0 < pr)
    (hb : 0 < b) (hd : min ms (pr / b) ≤ d) (hle : p + d ≤ pmax) :
    pressureFuel ms pr b pmax (p + d) + 1 ≤ pressureFuel ms pr b pmax p := by
  unfold pressureFuel
  have hδ : 0 < min ms (pr / b) := lt_min hms (div_pos hpr hb)
  have hB0 : (0 : ℚ) ≤ (pmax - (p + d)) / min ms (pr / b) :=
    div_nonneg (by linarith) hδ.le
  have hBA : (pmax - (p + d)) / min ms (pr / b) ≤
      (pmax - p) / min ms (pr / b) - 1 := by
    have h1 : pmax - (p + d) ≤ (pmax - p) - min ms (pr / b) := by linarith
    have h2 : (pmax - (p + d)) / min ms (pr / b) ≤
        ((pmax - p) - min ms (pr / b)) / min ms (pr / b) :=
      (div_le_div_iff_of_pos_right hδ).mpr h1
    have h3 : ((pmax - p) - min ms (pr / b)) / min ms (pr / b) =
        (pmax - p) / min ms (pr / b) - 1 := by
      rw [sub_div, div_self (ne_of_gt hδ)]
    linarith
  have hc1 : ⌈(pmax - (p + d)) / min ms (pr / b)⌉ ≤
      ⌈(pmax - p) / min ms (pr / b)⌉ - 1 := by
    calc ⌈(pmax - (p + d)) / min ms (pr / b)⌉
        ≤ ⌈(pmax - p) / min ms (pr / b) - 1⌉ := Int.ceil_le_ceil hBA
      _ = ⌈(pmax - p) / min ms (pr / b)⌉ - 1 := Int.ceil_sub_one _
  have hc0 : 0 ≤ ⌈(pmax - (p + d)) / min ms (pr / b)⌉ := Int.ceil_nonneg hB0
  omega

/-- Main sampler invariant: with positive parameters and enough fuel, the
generated tail is a `≤`-chain above the current point and ends exactly at
`pmax`. -/
theorem genPressures_chain_getLast (ms pr b pmax : ℚ) (hms : 0 < ms) (hpr : 0 < pr)
    (hb : 0 < b) :
    ∀ (fuel : Nat) (p : ℚ), 0 ≤ p → p ≤ pmax → pressureFuel ms pr b pmax p ≤ fuel →
      List.Chain (· ≤ ·) p (genPressures ms pr b pmax fuel p) ∧
      (genPressures ms pr b pmax fuel p).getLast? = some pmax := by
  intro fuel
  induction fuel with
  | zero =>
      intro p _ _ hf
      unfold pressureFuel at hf
      omega
  | succ n ih =>
      intro p hp0 hple hf
      rw [genPressures_succ]
      by_cases hcase : p + min ms (pr * (b * p ^ 2 + 2 * p + 1 / b)) ≤ pmax
      · rw [if_pos hcase]
        have hdpos := deltaPos ms pr b p hms hpr hb hp0
        have hdmin := deltaMin_le ms pr b p hpr hb hp0
        have hfuel : pressureFuel ms pr b pmax
            (p + min ms (pr * (b * p ^ 2 + 2 * p + 1 / b))) ≤ n := by
          have := pressureFuel_decrease ms pr b pmax p
            (min ms (pr * (b * p ^ 2 + 2 * p + 1 / b))) hms hpr hb hdmin hcase
          omega
        have hrec := ih (p + min ms (pr * (b * p ^ 2 + 2 * p + 1 / b)))
          (by linarith) hcase hfuel
        constructor
        · exact List.Chain.cons (by linarith) hrec.1
        · rcases hgen : genPressures ms pr b pmax n
              (p + min ms (pr * (b * p ^ 2 + 2 * p + 1 / b))) with _ | ⟨x, xs⟩
          · rw [hgen] at hrec
            simp at hrec
          · rw [hgen] at hrec
            rw [List.getLast?_cons_cons]
            exact hrec.2
      · rw [if_neg hcase]
        exact ⟨List.Chain.cons hple List.Chain.nil, rfl⟩

theorem getLast?_cons_of_getLast? {α : Type} {l : List α} {x : α} (a : α)
    (h : l.getLast? = some x) : (a :: l).getLast? = some x := by
  cases l with
  | nil => simp at h
  | cons b t => rw [List.getLast?_cons_cons]; exact h

/-!
## Claim theorems: adaptive sampler (C2, C3)
-/

theorem choose_pressure_points_none (inp : IsoParams) (sat khenry : ℚ)
    (hlist : inp.pressure_list = none) :
    choose_pressure_points inp sat khenry =
      inp.pressure_min ::
        genPressures inp.pressure_maxstep inp.pressure_precision
          (khenry / sat * 100000) inp.pressure_max
          (pressureFuel inp.pressure_maxstep inp.pressure_precision
            (khenry / sat * 100000) inp.pressure_max inp.pressure_min)
          inp.pressure_min := by
  unfold choose_pressure_points
  rw [hlist]

/-- C3 counterexample.  The claim says the generated pressure sequence is
strictly increasing; with `b = 1`, `p0 = 1`, `precision = 1`, `maxStep = 1`,
`pmax = 2` the generated point lands on `pmax` exactly and the final append
duplicates it: the sequence is `[1, 2, 2]`, which is not strictly
increasing. -/
theorem choose_pressure_points_not_strictMono :
    ¬ List.Chain' (· < ·) (choose_pressure_points samplerHitParams 100000 1) := by
  have h : choose_pressure_points samplerHitParams 100000 1 = [1, 2, 2] := by
    with_unfolding_all rfl
  rw [h]
  norm_num [List.chain'_cons, List.chain'_singleton]

/-- C3 (amended): for fixed positive steepness parameters and
`0 ≤ pressure_min < pressure_max`, with no explicit `pressure_list`, the
sampler (a pure function, hence identical across repeated invocations) yields
a non-decreasing sequence whose last element equals `pressure_max` exactly.
Strictness can fail only at the final element, which may repeat
`pressure_max` (see `choose_pressure_points_not_strictMono`). -/
theorem choose_pressure_points_sorted_last (inp : IsoParams) (sat khenry : ℚ)
    (hlist : inp.pressure_list = none)
    (hms : 0 < inp.pressure_maxstep) (hpr : 0 < inp.pressure_precision)
    (hb : 0 < khenry / sat * 100000)
    (h0 : 0 ≤ inp.pressure_min) (hlt : inp.pressure_min < inp.pressure_max) :
    List.Chain' (· ≤ ·) (choose_pressure_points inp sat khenry) ∧
    (choose_pressure_points inp sat khenry).getLast? = some inp.pressure_max := by
  have hmain := genPressures_chain_getLast inp.pressure_maxstep inp.pressure_precision
    (khenry / sat * 100000) inp.pressure_max hms hpr hb
    (pressureFuel inp.pressure_maxstep inp.pressure_precision (khenry / sat * 100000)
      inp.pressure_max inp.pressure_min)
    inp.pressure_min h0 hlt.le le_rfl
  unfold choose_pressure_points
  rw [hlist]
  exact ⟨hmain.1, getLast?_cons_of_getLast? _ hmain.2⟩

/-- Witness for `choose_pressure_points_sorted_last` at the concrete input
`samplerHitParams`, `sat = 100000`, `khenry = 1`. -/
theorem choose_pressure_points_sorted_last_witness :
    (0 : ℚ) < 1 ∧
    (List.Chain' (· ≤ ·) (choose_pressure_points samplerHitParams 100000 1) ∧
      (choose_pressure_points samplerHitParams 100000 1).getLast? =
        some samplerHitParams.pressure_max) :=
  ⟨by norm_num,
   choose_pressure_points_sorted_last samplerHitParams 100000 1 rfl
     (by norm_num [samplerHitParams]) (by norm_num [samplerHitParams])
     (by norm_num) (by norm_num [samplerHitParams])
     (by norm_num [samplerHitParams])⟩

/-- C2 counterexample.  The claim says that with `pressure_min = pressure_max`
the sequence is the one-element list `[pressure_max]`; the code starts the
list at `pressure_min` and the loop then appends `pressure_max` once more, so
the result is the two-element list `[1, 1]`, not `[1]`. -/
theorem choose_pressure_points_boundary_counterexample :
    choose_pressure_points samplerBoundaryParams 100000 1 ≠ [1] := by
  have h : choose_pressure_points samplerBoundaryParams 100000 1 = [1, 1] := by
    with_unfolding_all rfl
  rw [h]
  simp

/-- C2 (amended): with positive sampler parameters, no explicit
`pressure_list`, and `pressure_min = pressure_max ≥ 0`, the generated sequence
is exactly the two-element list `[pressure_max, pressure_max]` (the starting
point followed by the final append of the maximum). -/
theorem choose_pressure_points_boundary (inp : IsoParams) (sat khenry : ℚ)
    (hlist : inp.pressure_list = none)
    (hms : 0 < inp.pressure_maxstep) (hpr : 0 < inp.pressure_precision)
    (hb : 0 < khenry / sat * 100000) (h0 : 0 ≤ inp.pressure_max)
    (heq : inp.pressure_min = inp.pressure_max) :
    choose_pressure_points inp sat khenry =
      [inp.pressure_max, inp.pressure_max] := by
  have hfuel : pressureFuel inp.pressure_maxstep inp.pressure_precision
      (khenry / sat * 100000) inp.pressure_max inp.pressure_max = 1 := by
    unfold pressureFuel
    simp
  have hdpos := deltaPos inp.pressure_maxstep inp.pressure_precision
    (khenry / sat * 100000) inp.pressure_max hms hpr hb h0
  have hgen : genPressures inp.pressure_maxstep inp.pressure_precision
      (khenry / sat * 100000) inp.pressure_max 1 inp.pressure_max =
      [inp.pressure_max] := by
    rw [genPressures_succ, if_neg (by linarith)]
  rw [choose_pressure_points_none inp sat khenry hlist, heq, hfuel, hgen]

/-- Witness for `choose_pressure_points_boundary` at the concrete input
`samplerBoundaryParams`, `sat = 100000`, `khenry = 1`. -/
theorem choose_pressure_points_boundary_witness :
    samplerBoundaryParams.pressure_min = samplerBoundaryParams.pressure_max ∧
    choose_pressure_points samplerBoundaryParams 100000 1 = [1, 1] :=
  ⟨rfl,
   choose_pressure_points_boundary samplerBoundaryParams 100000 1 rfl
     (by norm_num [samplerBoundaryParams]) (by norm_num [samplerBoundaryParams])
     (by norm_num) (by norm_num [samplerBoundaryParams]) rfl⟩

/-!
## Helper lemmas: isotherm records
-/

/-- The geometric record written out: the Zeo++ keys followed by the three
keys `get_geometric_dict` appends (none of which collide). -/
theorem get_geometric_dict_eq (z : ZeoppOut) (m : ℚ) :
    get_geometric_dict z m =
      zeoppDict z ++
        [("Estimated_saturation_loading", JVal.num (z.poav_cm3_g * m)),
         ("Estimated_saturation_loading_unit", JVal.str "mol/kg"),
         ("is_porous", JVal.bool (decide (z.poav_a3 > 0)))] := by
  simp [get_geometric_dict, zeoppDict, dictUpdate, dictSet]

theorem geom_is_porous (z : ZeoppOut) (m : ℚ) :
    getBoolD (get_geometric_dict z m) "is_porous" = decide (z.poav_a3 > 0) := by
  simp [get_geometric_dict_eq, zeoppDict, getBoolD, dictLookup]

theorem geom_lookup_is_porous (z : ZeoppOut) (m : ℚ) :
    dictLookup "is_porous" (get_geometric_dict z m) =
      some (JVal.bool (decide (z.poav_a3 > 0))) := by
  simp [get_geometric_dict_eq, zeoppDict, dictLookup]

theorem geom_lookup_isotherm (z : ZeoppOut) (m : ℚ) :
    dictLookup "isotherm" (get_geometric_dict z m) = none := by
  simp [get_geometric_dict_eq, zeoppDict, dictLookup]

theorem geom_lookup_henry (z : ZeoppOut) (m : ℚ) :
    dictLookup "henry_coefficient_average" (get_geometric_dict z m) = none := by
  simp [get_geometric_dict_eq, zeoppDict, dictLookup]

theorem gop_no_widom (g : List (String × JVal)) (inp : IsoParams) :
    get_output_parameters g inp none none [] = g := rfl

/-- The record after the Widom-label updates written out: none of the nine new
keys collide with the geometric record or with each other, so everything is
appended. -/
theorem widomRecord_eq (z : ZeoppOut) (m : ℚ) (inp : IsoParams) (w : WidomCompOut) :
    widomRecord (get_geometric_dict z m) inp w =
      get_geometric_dict z m ++
        [("temperature", JVal.num inp.temperature),
         ("temperature_unit", JVal.str "K"),
         ("is_kh_enough",
           JVal.bool (decide (w.henry_coefficient_average > inp.raspa_minKh))),
         ("henry_coefficient_average", JVal.num w.henry_coefficient_average),
         ("henry_coefficient_dev", JVal.num w.henry_coefficient_dev),
         ("henry_coefficient_unit", JVal.str w.henry_coefficient_unit),
         ("adsorption_energy_widom_average", JVal.num w.adsorption_energy_widom_average),
         ("adsorption_energy_widom_dev", JVal.num w.adsorption_energy_widom_dev),
         ("adsorption_energy_widom_unit", JVal.str w.adsorption_energy_widom_unit)] := by
  simp [widomRecord, get_geometric_dict_eq, zeoppDict, dictUpdate, dictSet]

theorem widomRecord_is_kh_enough (z : ZeoppOut) (m : ℚ) (inp : IsoParams)
    (w : WidomCompOut) :
    getBoolD (widomRecord (get_geometric_dict z m) inp w) "is_kh_enough" =
      decide (w.henry_coefficient_average > inp.raspa_minKh) := by
  simp [widomRecord_eq, get_geometric_dict_eq, zeoppDict, getBoolD, dictLookup]

theorem widomRecord_lookup_is_porous (z : ZeoppOut) (m : ℚ) (inp : IsoParams)
    (w : WidomCompOut) :
    dictLookup "is_porous" (widomRecord (get_geometric_dict z m) inp w) =
      some (JVal.bool (decide (z.poav_a3 > 0))) := by
  simp [widomRecord_eq, get_geometric_dict_eq, zeoppDict, dictLookup]

theorem widomRecord_lookup_is_kh (z : ZeoppOut) (m : ℚ) (inp : IsoParams)
    (w : WidomCompOut) :
    dictLookup "is_kh_enough" (widomRecord (get_geometric_dict z m) inp w) =
      some (JVal.bool (decide (w.henry_coefficient_average > inp.raspa_minKh))) := by
  simp [widomRecord_eq, get_geometric_dict_eq, zeoppDict, dictLookup]

theorem widomRecord_lookup_isotherm (z : ZeoppOut) (m : ℚ) (inp : IsoParams)
    (w : WidomCompOut) :
    dictLookup "isotherm" (widomRecord (get_geometric_dict z m) inp w) = none := by
  simp [widomRecord_eq, get_geometric_dict_eq, zeoppDict, dictLookup]

/-- Shape of a non-porous run: no Widom or GCMC submission, no exposed block
file, and the final record is the geometric record itself. -/
theorem runIsotherm_nonporous (env : IsoEnv) (inp : IsoParams)
    (hnp : ¬ env.zeopp.poav_a3 > 0) :
    runIsotherm env inp =
      { widom_submissions := 0, gcmc_submissions := 0, entered_gcmc_phase := false,
        block_emitted := false,
        record := get_geometric_dict env.zeopp env.molsatdens } := by
  have hd : decide (env.zeopp.poav_a3 > 0) = false := decide_eq_false hnp
  simp only [runIsotherm, geom_is_porous, hd, Bool.false_eq_true, if_false,
    Bool.false_and, gop_no_widom]

/-- Shape of a porous run whose Henry coefficient fails the gate: one Widom
submission, no GCMC submission, record `widomRecord`. -/
theorem runIsotherm_porous_lowKh (env : IsoEnv) (inp : IsoParams)
    (hp : env.zeopp.poav_a3 > 0)
    (hk : ¬ env.widom.henry_coefficient_average > inp.raspa_minKh) :
    runIsotherm env inp =
      { widom_submissions := 1, gcmc_submissions := 0, entered_gcmc_phase := false,
        block_emitted := decide (env.zeopp.number_of_blocking_spheres > 0),
        record := widomRecord (get_geometric_dict env.zeopp env.molsatdens) inp
          env.widom } := by
  have hd : decide (env.zeopp.poav_a3 > 0) = true := decide_eq_true hp
  have hk' : decide (env.widom.henry_coefficient_average > inp.raspa_minKh) = false :=
    decide_eq_false hk
  simp only [runIsotherm, should_run_gcmc, geom_is_porous, hd, hk', if_true,
    Bool.true_and, Bool.false_eq_true, if_false]
  simp only [get_output_parameters, geom_is_porous, hd, widomRecord_is_kh_enough,
    hk', Bool.false_eq_true, if_false]

/-- In the porous branch with a passing gate, the `is_kh_enough` entry of the
final record is `true`: the later `isotherm`/conversion-factor updates do not
touch that key. -/
theorem gop_porous_highKh_is_kh (z : ZeoppOut) (m : ℚ) (inp : IsoParams)
    (w : WidomCompOut) (ps : List ℚ) (gcmc : List GcmcOut)
    (hp : decide (z.poav_a3 > 0) = true)
    (hk : decide (w.henry_coefficient_average > inp.raspa_minKh) = true) :
    dictLookup "is_kh_enough"
      (get_output_parameters (get_geometric_dict z m) inp (some w) (some ps) gcmc) =
      some (JVal.bool true) := by
  have hbase : dictLookup "is_kh_enough"
      (widomRecord (get_geometric_dict z m) inp w) = some (JVal.bool true) := by
    rw [widomRecord_lookup_is_kh, hk]
  simp only [get_output_parameters, geom_is_porous, hp, widomRecord_is_kh_enough,
    hk, if_true]
  split
  · rw [dictLookup_dictUpdate_not_mem _ _ _ (by simp), hbase]
  · rw [dictLookup_dictUpdate_not_mem _ _ _ (by simp), hbase]

/-- Shape of a porous run whose Henry coefficient passes the gate: the GCMC
phase is entered and the record reports `is_kh_enough = true`. -/
theorem runIsotherm_porous_highKh (env : IsoEnv) (inp : IsoParams)
    (hp : env.zeopp.poav_a3 > 0)
    (hk : env.widom.henry_coefficient_average > inp.raspa_minKh) :
    (runIsotherm env inp).entered_gcmc_phase = true ∧
    dictLookup "is_kh_enough" (runIsotherm env inp).record = some (JVal.bool true) := by
  have hd : decide (env.zeopp.poav_a3 > 0) = true := decide_eq_true hp
  have hk' : decide (env.widom.henry_coefficient_average > inp.raspa_minKh) = true :=
    decide_eq_true hk
  constructor
  · simp only [runIsotherm, should_run_gcmc, geom_is_porous, hd, hk', if_true]
  · simp only [runIsotherm, should_run_gcmc, geom_is_porous, hd, hk', if_true]
    exact gop_porous_highKh_is_kh _ _ _ _ _ _ hd hk'

/-!
## Claim theorems: isotherm gating and aggregation (C4, C5, C7, C9)
-/

/-- C4 counterexample.  The claim says the final record is the mapping
`{"is_porous": false}` and nothing else; on a concrete non-porous screening
output the record is the full geometric record with nine keys, so its key list
is not `["is_porous"]`. -/
theorem isotherm_nonporous_record_counterexample :
    (runIsotherm envNonporous isoParamsEx).record.map Prod.fst ≠ ["is_porous"] ∧
    (runIsotherm envNonporous isoParamsEx).record.map Prod.fst =
      ["Density", "Unitcell_volume", "POAV_A^3", "POAV_Volume_fraction",
       "POAV_cm^3/g", "Number_of_blocking_spheres", "Estimated_saturation_loading",
       "Estimated_saturation_loading_unit", "is_porous"] := by
  have h := runIsotherm_nonporous envNonporous isoParamsEx
    (by norm_num [envNonporous, zeoppNonporous])
  rw [h]
  constructor
  · simp [get_geometric_dict_eq, zeoppDict]
  · simp [get_geometric_dict_eq, zeoppDict]

/-- C4 (amended): in the isotherm variant, when the screening stage reports no
accessible pore volume, no Widom and no GCMC stage is ever submitted, and the
final record is the full geometric record — it contains `is_porous = false`
and no Widom or isotherm keys, but it is not the single-entry mapping. -/
theorem isotherm_nonporous_outputs (env : IsoEnv) (inp : IsoParams)
    (hnp : ¬ env.zeopp.poav_a3 > 0) :
    (runIsotherm env inp).widom_submissions = 0 ∧
    (runIsotherm env inp).gcmc_submissions = 0 ∧
    (runIsotherm env inp).record = get_geometric_dict env.zeopp env.molsatdens ∧
    dictLookup "is_porous" (runIsotherm env inp).record = some (JVal.bool false) ∧
    dictLookup "isotherm" (runIsotherm env inp).record = none ∧
    dictLookup "henry_coefficient_average" (runIsotherm env inp).record = none := by
  rw [runIsotherm_nonporous env inp hnp]
  refine ⟨rfl, rfl, rfl, ?_, ?_, ?_⟩
  · have h := geom_lookup_is_porous env.zeopp env.molsatdens
    rw [decide_eq_false hnp] at h
    exact h
  · exact geom_lookup_isotherm env.zeopp env.molsatdens
  · exact geom_lookup_henry env.zeopp env.molsatdens

/-- Witness for `isotherm_nonporous_outputs` at the concrete non-porous run. -/
theorem isotherm_nonporous_outputs_witness :
    ¬ envNonporous.zeopp.poav_a3 > 0 ∧
    (runIsotherm envNonporous isoParamsEx).widom_submissions = 0 ∧
    dictLookup "isotherm" (runIsotherm envNonporous isoParamsEx).record = none :=
  ⟨by norm_num [envNonporous, zeoppNonporous],
   (isotherm_nonporous_outputs envNonporous isoParamsEx
     (by norm_num [envNonporous, zeoppNonporous])).1,
   (isotherm_nonporous_outputs envNonporous isoParamsEx
     (by norm_num [envNonporous, zeoppNonporous])).2.2.2.2.1⟩

/-- C5 counterexample.  The claim says the blocking-sphere artifact is still
emitted when the gate is false; on a concrete screening output with no
accessible volume but one blocking sphere, the `block` output is not
exposed. -/
theorem isotherm_block_not_emitted_counterexample :
    envNonporous.zeopp.number_of_blocking_spheres > 0 ∧
    (runIsotherm envNonporous isoParamsEx).block_emitted = false := by
  constructor
  · norm_num [envNonporous, zeoppNonporous]
  · rw [runIsotherm_nonporous envNonporous isoParamsEx
      (by norm_num [envNonporous, zeoppNonporous])]

/-- C5 (amended): when the screening gate is false because the structure has
no accessible void, the remaining phases are short-circuited and the final
record is still emitted, but the blocking-sphere artifact is **not** emitted
even when blocking spheres were found: the workchain exposes the `block`
output only in the porous branch of `should_run_widom`. -/
theorem isotherm_gate_false_no_block (env : IsoEnv) (inp : IsoParams)
    (hnp : ¬ env.zeopp.poav_a3 > 0)
    (hbs : env.zeopp.number_of_blocking_spheres > 0) :
    (runIsotherm env inp).block_emitted = false ∧
    (runIsotherm env inp).widom_submissions = 0 ∧
    (runIsotherm env inp).gcmc_submissions = 0 ∧
    (runIsotherm env inp).record = get_geometric_dict env.zeopp env.molsatdens := by
  rw [runIsotherm_nonporous env inp hnp]
  exact ⟨rfl, rfl, rfl, rfl⟩

/-- Witness for `isotherm_gate_false_no_block` at the concrete non-porous run
with one blocking sphere. -/
theorem isotherm_gate_false_no_block_witness :
    envNonporous.zeopp.number_of_blocking_spheres > 0 ∧
    (runIsotherm envNonporous isoParamsEx).block_emitted = false ∧
    (runIsotherm envNonporous isoParamsEx).record =
      get_geometric_dict envNonporous.zeopp envNonporous.molsatdens :=
  ⟨by norm_num [envNonporous, zeoppNonporous],
   (isotherm_gate_false_no_block envNonporous isoParamsEx
     (by norm_num [envNonporous, zeoppNonporous])
     (by norm_num [envNonporous, zeoppNonporous])).1,
   (isotherm_gate_false_no_block envNonporous isoParamsEx
     (by norm_num [envNonporous, zeoppNonporous])
     (by norm_num [envNonporous, zeoppNonporous])).2.2.2⟩

/-- C7: in the isotherm variant, when the structure is porous but the Widom
Henry coefficient is not above `raspa_minKh`, exactly one Widom submission and
zero GCMC submissions occur, and the final record has `is_porous = true`,
`is_kh_enough = false` and no `isotherm` key. -/
theorem isotherm_porous_lowKh_outputs (env : IsoEnv) (inp : IsoParams)
    (hp : env.zeopp.poav_a3 > 0)
    (hk : ¬ env.widom.henry_coefficient_average > inp.raspa_minKh) :
    (runIsotherm env inp).widom_submissions = 1 ∧
    (runIsotherm env inp).gcmc_submissions = 0 ∧
    dictLookup "is_porous" (runIsotherm env inp).record = some (JVal.bool true) ∧
    dictLookup "is_kh_enough" (runIsotherm env inp).record = some (JVal.bool false) ∧
    dictLookup "isotherm" (runIsotherm env inp).record = none := by
  rw [runIsotherm_porous_lowKh env inp hp hk]
  refine ⟨rfl, rfl, ?_, ?_, ?_⟩
  · have h := widomRecord_lookup_is_porous env.zeopp env.molsatdens inp env.widom
    rw [decide_eq_true hp] at h
    exact h
  · have h := widomRecord_lookup_is_kh env.zeopp env.molsatdens inp env.widom
    rw [decide_eq_false hk] at h
    exact h
  · exact widomRecord_lookup_isotherm env.zeopp env.molsatdens inp env.widom

/-- Witness for `isotherm_porous_lowKh_outputs` at the concrete porous run
whose Henry coefficient 1/2 is below the threshold 1. -/
theorem isotherm_porous_lowKh_outputs_witness :
    envPorousLow.zeopp.poav_a3 > 0 ∧
    ¬ envPorousLow.widom.henry_coefficient_average > isoParamsEx.raspa_minKh ∧
    (runIsotherm envPorousLow isoParamsEx).widom_submissions = 1 ∧
    dictLookup "is_kh_enough" (runIsotherm envPorousLow isoParamsEx).record =
      some (JVal.bool false) :=
  ⟨by norm_num [envPorousLow, zeoppPorous],
   by norm_num [envPorousLow, widomLow, isoParamsEx],
   (isotherm_porous_lowKh_outputs envPorousLow isoParamsEx
     (by norm_num [envPorousLow, zeoppPorous])
     (by norm_num [envPorousLow, widomLow, isoParamsEx])).1,
   (isotherm_porous_lowKh_outputs envPorousLow isoParamsEx
     (by norm_num [envPorousLow, zeoppPorous])
     (by norm_num [envPorousLow, widomLow, isoParamsEx])).2.2.2.1⟩

/-- C9: for every porous run, the `is_kh_enough` boolean stored in the final
record equals the `should_run_gcmc` gate decision (both are the strict
comparison `henry_coefficient_average > raspa_minKh` on the same Widom
output), and the GCMC phase is entered exactly when that decision is true. -/
theorem is_kh_enough_matches_gate (env : IsoEnv) (inp : IsoParams)
    (hp : env.zeopp.poav_a3 > 0) :
    dictLookup "is_kh_enough" (runIsotherm env inp).record =
      some (JVal.bool (should_run_gcmc env.widom inp)) ∧
    (runIsotherm env inp).entered_gcmc_phase = should_run_gcmc env.widom inp := by
  cases hkh : should_run_gcmc env.widom inp with
  | false =>
      have hk : ¬ env.widom.henry_coefficient_average > inp.raspa_minKh := by
        unfold should_run_gcmc at hkh
        exact of_decide_eq_false hkh
      rw [runIsotherm_porous_lowKh env inp hp hk]
      constructor
      · have h := widomRecord_lookup_is_kh env.zeopp env.molsatdens inp env.widom
        rw [decide_eq_false hk] at h
        exact h
      · rfl
  | true =>
      have hk : env.widom.henry_coefficient_average > inp.raspa_minKh := by
        unfold should_run_gcmc at hkh
        exact of_decide_eq_true hkh
      have h := runIsotherm_porous_highKh env inp hp hk
      exact ⟨h.2, h.1⟩

/-- Witness for `is_kh_enough_matches_gate` at the concrete porous run. -/
theorem is_kh_enough_matches_gate_witness :
    envPorousLow.zeopp.poav_a3 > 0 ∧
    dictLookup "is_kh_enough" (runIsotherm envPorousLow isoParamsEx).record =
      some (JVal.bool (should_run_gcmc envPorousLow.widom isoParamsEx)) :=
  ⟨by norm_num [envPorousLow, zeoppPorous],
   (is_kh_enough_matches_gate envPorousLow isoParamsEx
     (by norm_num [envPorousLow, zeoppPorous])).1⟩

/-!
## Claim theorems: binding-energy escalation machine (C1, C6)
-/

/-- C1 (code bug): the claim — and the declared exit code 902
`ERROR_NO_MORE_SETTINGS` — describe the intended ladder-exhaustion behavior,
but on the failing input (protocol with only `settings_0` and `settings_1`,
first geo-opt attempt judged RetryEscalate) the source never reaches it: the
settings-bad path of `inspect_and_update_settings_geo_opt` first executes
line 226, which reads the never-assigned `self.ctx.stage_tag`, so the run
aborts with an uncaught `AttributeError` after exactly one geometry-stage
submission.  A second stage is never submitted and `ERROR_NO_MORE_SETTINGS`
is never returned. -/
theorem ladder_exhaustion_crashes_first_retry (results : Nat → GeoOptResult)
    (h0 : judgedRetryEscalate (results 0)) :
    ∀ fuel, 1 ≤ fuel →
      runBindingEnergy [0, 1] 0 results fuel =
        some (BEOutcome.crashAttributeError 1) := by
  intro fuel hf
  obtain ⟨n, rfl⟩ : ∃ n, fuel = n + 1 := ⟨fuel - 1, by omega⟩
  obtain ⟨hp0, hb0⟩ := h0
  have hv0 : inspect_and_update_settings_geo_opt none [0, 1] 0 (results 0) =
      GeoVerdict.crashAttributeError := by
    unfold inspect_and_update_settings_geo_opt
    rcases hb0 with h | h
    · simp [hp0, h]
    · cases hscf : (results 0).scf_converged_last <;> simp [hp0, h, hscf]
  have hs : setup [0, 1] 0 = SetupOutcome.ok 0 := rfl
  unfold runBindingEnergy
  rw [hs]
  show geoOptLoop none [0, 1] results (n + 1) 0 0 =
    some (BEOutcome.crashAttributeError 1)
  simp only [geoOptLoop, hv0]

/-- Witness for `ladder_exhaustion_crashes_first_retry`: stage results that
always parse but never converge the SCF, with loop budget 1. -/
theorem ladder_exhaustion_crashes_first_retry_witness :
    judgedRetryEscalate (retryAllResults 0) ∧
    runBindingEnergy [0, 1] 0 retryAllResults 1 =
      some (BEOutcome.crashAttributeError 1) :=
  ⟨⟨rfl, Or.inl rfl⟩,
   ladder_exhaustion_crashes_first_retry retryAllResults ⟨rfl, Or.inl rfl⟩
     1 le_rfl⟩

/-- Every index strictly between the current one and the target that is
missing from the protocol makes the setup loop fail. -/
theorem setupLoop_missing (protocol : List Nat) :
    ∀ (remaining settings_idx k : Nat), settings_idx < k →
      k ≤ settings_idx + remaining → k ∉ protocol →
      setupLoop protocol settings_idx remaining =
        SetupOutcome.exitMissingInitialSettings := by
  intro remaining
  induction remaining with
  | zero => intro idx k h1 h2 _; omega
  | succ n ih =>
      intro idx k h1 h2 hk
      unfold setupLoop
      by_cases hmem : idx + 1 ∈ protocol
      · rw [if_pos hmem]
        have hne : k ≠ idx + 1 := fun h => hk (h ▸ hmem)
        exact ih (idx + 1) k (by omega) (by omega) hk
      · rw [if_neg hmem]

/-- C6 counterexample.  The claim says a protocol with no `settings_0` profile
terminates with `ERROR_MISSING_INITIAL_SETTINGS`; in the code
`deepcopy(self.ctx.protocol['settings_0'])` runs before any membership check,
so that input instead raises an uncaught Python `KeyError`, which is not that
exit code. -/
theorem missing_settings0_crashes :
    runBindingEnergy [1] 0 retryAllResults 3 = some (BEOutcome.crashKeyError 0) ∧
    some (BEOutcome.crashKeyError 0) ≠
      some (BEOutcome.exitMissingInitialSettings 0) := by
  exact ⟨rfl, by simp⟩

/-- C6 (amended): a missing profile at an index between 1 and the requested
`starting_settings_idx` terminates the workflow with
`ERROR_MISSING_INITIAL_SETTINGS` during setup, before any geometry stage is
submitted (zero submissions); a protocol with no `settings_0`, however, aborts
setup with an uncaught key lookup error — also before any submission — rather
than with that exit code (see `missing_settings0_crashes`). -/
theorem missing_intermediate_settings_exit (protocol : List Nat) (starting : Nat)
    (results : Nat → GeoOptResult) (fuel k : Nat) (h0 : 0 ∈ protocol)
    (hk1 : 1 ≤ k) (hk2 : k ≤ starting) (hk3 : k ∉ protocol) :
    runBindingEnergy protocol starting results fuel =
      some (BEOutcome.exitMissingInitialSettings 0) := by
  have hs : setup protocol starting = SetupOutcome.exitMissingInitialSettings := by
    unfold setup
    rw [if_pos h0]
    exact setupLoop_missing protocol starting 0 k (by omega) (by omega) hk3
  unfold runBindingEnergy
  rw [hs]

/-- Witness for `missing_intermediate_settings_exit`: protocol `{settings_0}`
with requested starting index 1 (profile `settings_1` missing). -/
theorem missing_intermediate_settings_exit_witness :
    0 ∈ [0] ∧ 1 ∉ [0] ∧
    runBindingEnergy [0] 1 retryAllResults 3 =
      some (BEOutcome.exitMissingInitialSettings 0) :=
  ⟨by simp, by simp,
   missing_intermediate_settings_exit [0] 1 retryAllResults 3 1 (by simp) le_rfl
     le_rfl (by simp)⟩

/-!
## Claim theorems: multi-component composition (C8, C10)
-/

/-- C8: in the multi-component variant the reported desorption-phase
composition of every component is its adsorption-phase absolute loading
divided by the total adsorption-phase loading — it does not depend on the
desorption outputs at all — and the `MolFraction` fed to the desorption stage
is the raw adsorption loading over the raw adsorption total. -/
theorem desorption_composition_from_adsorption (comps : List MComp)
    (isFramework : Bool) (ads des des' : String → GcmcCompOut) (c : MComp) :
    compositionOf comps isFramework ads des c =
      [c.molfraction,
       convLoad isFramework (ads c.name) * (ads c.name).loading_absolute_average /
         (comps.map (fun x => convLoad isFramework (ads x.name) *
           (ads x.name).loading_absolute_average)).sum] ∧
    compositionOf comps isFramework ads des c =
      compositionOf comps isFramework ads des' c ∧
    desorptionMolFraction comps ads c.name =
      (ads c.name).loading_absolute_average /
        (comps.map (fun x => (ads x.name).loading_absolute_average)).sum := by
  refine ⟨?_, ?_, rfl⟩
  · unfold compositionOf compDes totLoadAds loadingAbsoluteAverage
    simp
  · unfold compositionOf compDes totLoadAds loadingAbsoluteAverage
    simp

/-- C10: whenever the total adsorption-phase loading is nonzero, the
desorption composition entries (second element of each `composition` list)
sum to exactly 1, for any number of components. -/
theorem desorption_composition_sums_to_one (comps : List MComp)
    (isFramework : Bool) (ads des : String → GcmcCompOut)
    (h : totLoadAds comps isFramework ads des ≠ 0) :
    (comps.map (fun c => (compositionOf comps isFramework ads des c).getD 1 0)).sum
      = 1 := by
  have hmap : (comps.map
      (fun c => (compositionOf comps isFramework ads des c).getD 1 0)) =
      comps.map (fun c =>
        (loadingAbsoluteAverage isFramework ads des c.name).getD 0 0 *
          (totLoadAds comps isFramework ads des)⁻¹) := by
    simp [compositionOf, compDes, div_eq_mul_inv]
  rw [hmap, List.sum_map_mul_right]
  have htot : (comps.map (fun c =>
      (loadingAbsoluteAverage isFramework ads des c.name).getD 0 0)).sum =
      totLoadAds comps isFramework ads des := rfl
  rw [htot, mul_inv_cancel₀ h]

/-- Witness for `desorption_composition_sums_to_one` on two components with
adsorption loadings 2 and 3. -/
theorem desorption_composition_sums_to_one_witness :
    totLoadAds compsEx true adsEx desEx ≠ 0 ∧
    (compsEx.map
      (fun c => (compositionOf compsEx true adsEx desEx c).getD 1 0)).sum = 1 :=
  ⟨by with_unfolding_all decide,
   desorption_composition_sums_to_one compsEx true adsEx desEx
     (by with_unfolding_all decide)⟩
